import Mathlib

/-!
Verification of the page-change detection and snapshot dispatch pipeline of
the reading-companion repository, as a shallow embedding in Lean 4.

Embedded source files:
* `src/camera/page_tracker.py` — `hamming_distance`, `is_page_turn`
* `src/scanner/auto_scanner.py` — `AutoScanner` (`set_session`, `stop`,
  `manual_scan`, `_do_scan`)
* `src/scanner/vision_analyzer.py` — `VisionAnalyzer.trigger`
* `src/session/manager.py` — `SessionManager.add_snapshot`, `end_session`

Python integers become `Nat`/`Int`; `float('inf')` returned by
`hamming_distance` becomes `Option Nat` with `none` standing for the infinite
distance; Python `None` becomes `Option`; the wall-clock floats used by
`VisionAnalyzer` become `ℚ`; the async side effects of one scanner tick are
collected in an explicit effects record.
-/

namespace PageTracker

/-- Value of one hexadecimal digit, as accepted by Python `int(c, 16)`
restricted to hexadecimal digit characters; any other character makes
`int(hash, 16)` raise, which the source's `except` turns into infinite
distance. -/
def hexVal (c : Char) : Option Nat :=
  if '0' ≤ c ∧ c ≤ '9' then some (c.toNat - '0'.toNat)
  else if 'a' ≤ c ∧ c ≤ 'f' then some (c.toNat - 'a'.toNat + 10)
  else if 'A' ≤ c ∧ c ≤ 'F' then some (c.toNat - 'A'.toNat + 10)
  else none

/-- The four bits of a hexadecimal digit value, most significant first. -/
def hexBits (n : Nat) : List Bool :=
  [n / 8 % 2 = 1, n / 4 % 2 = 1, n / 2 % 2 = 1, n % 2 = 1]

/-- `bin(int(s, 16))[2:].zfill(len(s) * 4)` as a bit list: the binary
expansion of a hexadecimal string, zero-padded to four bits per digit.
The empty string fails (`int('', 16)` raises), as does any non-hex digit. -/
def parseHexBits (s : String) : Option (List Bool) :=
  if s.isEmpty then none
  else (s.data.mapM hexVal).map (fun ds => ds.flatMap hexBits)

/-- `sum(c1 != c2 for c1, c2 in zip(bin1, bin2))`: the number of positions
where two bit lists differ (zip truncates to the shorter list). -/
def countDiff : List Bool → List Bool → Nat
  | x :: xs, y :: ys => (if x = y then 0 else 1) + countDiff xs ys
  | _, _ => 0

/-- `hamming_distance(hash1, hash2)` from `src/camera/page_tracker.py`:
unequal lengths give `float('inf')` (here `none`); otherwise both strings
are parsed as hexadecimal and the differing bits are counted; a parse
failure is caught and also yields infinity. -/
def hamming_distance (hash1 hash2 : String) : Option Nat :=
  if hash1.length ≠ hash2.length then none
  else
    match parseHexBits hash1, parseHexBits hash2 with
    | some b1, some b2 => some (countDiff b1 b2)
    | _, _ => none

/-- The comparison `distance > threshold` where `distance` may be the
infinite value: `float('inf') > t` holds for every integer `t`. -/
def distGt (d : Option Nat) (threshold : Int) : Bool :=
  match d with
  | none => true
  | some n => (n : Int) > threshold

/-- `is_page_turn(fp1, fp2, threshold)` from `src/camera/page_tracker.py`.
Python's `not fp1` is true both for `None` and for the empty string, so the
first guard returns `True` whenever either side is absent or empty. -/
def is_page_turn (fp1 fp2 : Option String) (threshold : Int := 10) : Bool :=
  match fp1, fp2 with
  | some a, some b =>
    if a.isEmpty || b.isEmpty then true
    else if a == b then false
    else distGt (hamming_distance a b) threshold
  | _, _ => true

/-- Python truthiness `not fp` for an optional string argument: true for
`None` and for the empty string. -/
def optFalsy : Option String → Bool
  | none => true
  | some s => s.isEmpty

theorem countDiff_comm (xs ys : List Bool) : countDiff xs ys = countDiff ys xs := by
  induction xs generalizing ys with
  | nil => cases ys <;> rfl
  | cons x xs ih =>
    cases ys with
    | nil => rfl
    | cons y ys =>
      simp only [countDiff, ih]
      congr 1
      by_cases h : x = y
      · simp [h]
      · have h' : ¬ y = x := fun hyx => h hyx.symm
        simp [h, h']

theorem hamming_distance_comm (a b : String) :
    hamming_distance a b = hamming_distance b a := by
  unfold hamming_distance
  by_cases h : a.length = b.length
  · simp only [h, ne_eq, not_true_eq_false, if_false]
    cases parseHexBits a <;> cases parseHexBits b <;> simp [countDiff_comm]
  · have h' : ¬ b.length = a.length := fun hba => h hba.symm
    simp [h, h']

end PageTracker

/-- C9: `hamming_distance` is symmetric; unequal-length inputs have
infinite distance (`none`), which exceeds every finite threshold under the
comparison `is_page_turn` uses, so they are never considered equal. -/
theorem hamming_distance_symm_and_unequal_length_infinite
    (a b : String) (t : Int) :
    PageTracker.hamming_distance a b = PageTracker.hamming_distance b a ∧
    (a.length ≠ b.length →
      PageTracker.hamming_distance a b = none ∧
      PageTracker.distGt (PageTracker.hamming_distance a b) t = true) := by
  refine ⟨PageTracker.hamming_distance_comm a b, fun h => ?_⟩
  have hd : PageTracker.hamming_distance a b = none := by
    unfold PageTracker.hamming_distance
    simp [h]
  exact ⟨hd, by rw [hd]; rfl⟩

/-- Witness for C9 at concrete inputs of unequal length. -/
theorem hamming_distance_symm_and_unequal_length_infinite_witness :
    PageTracker.hamming_distance "ab" "abc" = none ∧
    PageTracker.distGt (PageTracker.hamming_distance "ab" "abc") 1000 = true := by
  have h := hamming_distance_symm_and_unequal_length_infinite "ab" "abc" 1000
  exact h.2 (by decide)

/-- C1 counterexample: with both fingerprints empty, `is_page_turn` returns
`True`, not `False` — the guard `not fp1 or not fp2` fires before the
equality check — so the claimed `is_page_turn(fp, fp) == False` fails at
`fp = ""`. -/
theorem is_page_turn_both_empty_counterexample :
    PageTracker.is_page_turn (some "") (some "") 10 = true := by
  decide

/-- C1 (amended): `is_page_turn` returns `True` whenever either fingerprint
is absent or empty — including when both are empty — and
`is_page_turn(fp, fp) == False` holds exactly for non-empty `fp`. -/
theorem is_page_turn_empty_sides (fp1 fp2 : Option String) (t : Int) (a : String)
    (hempty : PageTracker.optFalsy fp1 = true ∨ PageTracker.optFalsy fp2 = true)
    (ha : a.isEmpty = false) :
    PageTracker.is_page_turn fp1 fp2 t = true ∧
    PageTracker.is_page_turn (some a) (some a) t = false := by
  constructor
  · cases fp1 with
    | none => rfl
    | some x =>
      cases fp2 with
      | none => rfl
      | some y =>
        simp only [PageTracker.optFalsy] at hempty
        simp [PageTracker.is_page_turn, hempty]
  · simp [PageTracker.is_page_turn, ha]

/-- Witness for C1 (amended) at concrete inputs: one side empty, and a
non-empty fingerprint compared with itself. -/
theorem is_page_turn_empty_sides_witness :
    PageTracker.is_page_turn (some "") (some "ab") 10 = true ∧
    PageTracker.is_page_turn (some "ab") (some "ab") 10 = false :=
  is_page_turn_empty_sides (some "") (some "ab") 10 "ab" (Or.inl (by decide)) (by decide)

/-- C3: for non-empty fingerprints and any threshold, an absent previous
fingerprint yields `True`; exact string equality yields `False`; otherwise
the result equals the comparison `hamming_distance > threshold` (with the
infinite distance exceeding every threshold). -/
theorem is_page_turn_nonempty_cases (a b : String) (t : Int)
    (ha : a.isEmpty = false) (hb : b.isEmpty = false) :
    PageTracker.is_page_turn none (some b) t = true ∧
    (a = b → PageTracker.is_page_turn (some a) (some b) t = false) ∧
    (a ≠ b → PageTracker.is_page_turn (some a) (some b) t =
      PageTracker.distGt (PageTracker.hamming_distance a b) t) := by
  refine ⟨rfl, fun hab => ?_, fun hab => ?_⟩
  · subst hab
    simp [PageTracker.is_page_turn, ha]
  · simp [PageTracker.is_page_turn, ha, hb, hab]

/-- Witness for C3 at concrete non-empty fingerprints. -/
theorem is_page_turn_nonempty_cases_witness :
    PageTracker.is_page_turn none (some "cd") 10 = true ∧
    (("ab" : String) = "cd" → PageTracker.is_page_turn (some "ab") (some "cd") 10 = false) ∧
    (("ab" : String) ≠ "cd" → PageTracker.is_page_turn (some "ab") (some "cd") 10 =
      PageTracker.distGt (PageTracker.hamming_distance "ab" "cd") 10) :=
  is_page_turn_nonempty_cases "ab" "cd" 10 (by decide) (by decide)

namespace AutoScanner

/-- `_MIN_OCR_LEN` from `src/scanner/auto_scanner.py`: OCR output with fewer
characters (after stripping) is treated as an unusable frame. -/
def MIN_OCR_LEN : Nat := 6

/-- Python `str.strip()`: the characters of a string with leading and
trailing whitespace removed. -/
def pyStrip (s : String) : List Char :=
  ((s.data.dropWhile Char.isWhitespace).reverse.dropWhile Char.isWhitespace).reverse

/-- Mutable state of `AutoScanner` (`src/scanner/auto_scanner.py`). Resource
handles are abstracted to booleans: whether the scan-loop task is scheduled,
whether the persistent camera is open, whether the process pool is alive,
and whether a vision analyzer has been attached. -/
structure State where
  running : Bool
  scanTask : Bool
  cameraOpen : Bool
  executorAlive : Bool
  hasVision : Bool
  sessionId : Option String
  lastFingerprint : Option String
  lastSnapshotId : Option Nat
  pageTurnCount : Nat
  deriving DecidableEq, Repr

/-- External inputs consumed by one `_do_scan` tick: whether the camera
read produced a frame, the OCR text and fingerprint returned by the worker
process, the timestamp-derived image path, and the id the session store
assigns to a snapshot if one is persisted. -/
structure TickInput where
  frameOk : Bool
  ocrText : String
  fp : String
  imagePath : String
  newSnapshotId : Nat
  deriving DecidableEq, Repr

/-- Observable side effects of one `_do_scan` tick. Each callback or
trigger is invoked at most once per tick, so an `Option` records whether it
fired and with what argument; `visionTrigger` records the `force` flag. -/
structure TickEffects where
  onSnapshotCall : Option (String × String)
  imageWritten : Bool
  snapshotPersisted : Bool
  visionTrigger : Option Bool
  onPageTurnCall : Option Nat
  result : Option (String × String × String)
  deriving DecidableEq, Repr

/-- A tick that stops early produces no effects. -/
def noEffects : TickEffects :=
  { onSnapshotCall := none, imageWritten := false, snapshotPersisted := false,
    visionTrigger := none, onPageTurnCall := none, result := none }

/-- `AutoScanner.set_session` (`bind_session` in the spec): records the
session id, clears the last fingerprint and snapshot id, zeroes the page
counter. -/
def set_session (s : State) (sid : String) : State :=
  { s with sessionId := some sid, lastFingerprint := none,
           lastSnapshotId := none, pageTurnCount := 0 }

/-- `AutoScanner.clear_session`: drops the session id and scan history but
leaves the page counter untouched. -/
def clear_session (s : State) : State :=
  { s with sessionId := none, lastFingerprint := none, lastSnapshotId := none }

/-- `AutoScanner.stop`: stops the loop, cancels the scan task, closes the
camera, shuts down the process pool (`wait=False`), and clears the session
id, last fingerprint and last snapshot id. The source does not touch
`_page_turn_count` here. -/
def stop (s : State) : State :=
  { s with running := false, scanTask := false, cameraOpen := false,
           executorAlive := false, sessionId := none,
           lastFingerprint := none, lastSnapshotId := none }

/-- `AutoScanner._do_scan(force_save)`: one scan tick, returning the
successor state and the effects of the tick. Mirrors the source's control
flow: camera guard, frame guard, minimum-OCR-length guard (empty
`on_snapshot` notification), frame persistence plus `on_snapshot`, then —
only with a bound session — the page-turn decision and conditional
snapshot persistence, vision trigger and page-turn callback. -/
def do_scan (s : State) (forceSave : Bool) (inp : TickInput) : State × TickEffects :=
  if ¬ (s.cameraOpen = true) then (s, noEffects)
  else if ¬ (inp.frameOk = true) then (s, noEffects)
  else if inp.ocrText.isEmpty ∨ (pyStrip inp.ocrText).length < MIN_OCR_LEN then
    (s, { noEffects with onSnapshotCall := some ("", "") })
  else
    let eff0 : TickEffects :=
      { noEffects with imageWritten := true,
                       onSnapshotCall := some (inp.ocrText, inp.imagePath) }
    match s.sessionId with
    | none =>
      (s, { eff0 with visionTrigger := if s.hasVision then some false else none })
    | some _ =>
      let isNewPage := PageTracker.is_page_turn s.lastFingerprint (some inp.fp) 10
      let shouldSave := forceSave || isNewPage || s.lastFingerprint.isNone
      if shouldSave then
        let s1 := { s with lastSnapshotId := some inp.newSnapshotId,
                           lastFingerprint := some inp.fp }
        if isNewPage then
          ({ s1 with pageTurnCount := s.pageTurnCount + 1 },
           { eff0 with snapshotPersisted := true,
                       visionTrigger := if s.hasVision then some true else none,
                       onPageTurnCall := some (s.pageTurnCount + 1),
                       result := some (inp.imagePath, inp.ocrText, inp.fp) })
        else
          (s1,
           { eff0 with snapshotPersisted := true,
                       visionTrigger := if s.hasVision then some false else none,
                       result := some (inp.imagePath, inp.ocrText, inp.fp) })
      else
        (s, eff0)

/-- `AutoScanner.manual_scan`: a single tick with `force_save=True`. -/
def manual_scan (s : State) (inp : TickInput) : State × TickEffects :=
  do_scan s true inp

end AutoScanner

/-- C2 counterexample: in a bound session, on a tick with usable text where
`is_page_turn` is `False`, the source takes the `should_save` else-branch
and returns without calling the vision analyzer at all — no non-forced
`VisionTrigger` fires (and no snapshot is persisted). -/
theorem unchanged_page_tick_counterexample :
    PageTracker.is_page_turn (some "ff") (some "ff") 10 = false ∧
    (AutoScanner.do_scan
      { running := true, scanTask := true, cameraOpen := true,
        executorAlive := true, hasVision := true, sessionId := some "s1",
        lastFingerprint := some "ff", lastSnapshotId := some 1,
        pageTurnCount := 1 }
      false
      { frameOk := true, ocrText := "hello book", fp := "ff",
        imagePath := "p.jpg", newSnapshotId := 2 }).2.snapshotPersisted = false ∧
    (AutoScanner.do_scan
      { running := true, scanTask := true, cameraOpen := true,
        executorAlive := true, hasVision := true, sessionId := some "s1",
        lastFingerprint := some "ff", lastSnapshotId := some 1,
        pageTurnCount := 1 }
      false
      { frameOk := true, ocrText := "hello book", fp := "ff",
        imagePath := "p.jpg", newSnapshotId := 2 }).2.visionTrigger = none := by
  refine ⟨by decide, by decide, by decide⟩

/-- C2 (amended): in a bound session, on a tick with usable text where
`is_page_turn` returns `False`, no new Snapshot is persisted and no
VisionTrigger fires at all; the scanner state is unchanged (only the
`on_snapshot` callback has already run). -/
theorem unchanged_page_tick_no_persist_no_trigger
    (s : AutoScanner.State) (inp : AutoScanner.TickInput) (sid : String)
    (hcam : s.cameraOpen = true) (hframe : inp.frameOk = true)
    (htext : ¬ (inp.ocrText.isEmpty ∨
      (AutoScanner.pyStrip inp.ocrText).length < AutoScanner.MIN_OCR_LEN))
    (hsess : s.sessionId = some sid)
    (hpt : PageTracker.is_page_turn s.lastFingerprint (some inp.fp) 10 = false) :
    (AutoScanner.do_scan s false inp).1 = s ∧
    (AutoScanner.do_scan s false inp).2.snapshotPersisted = false ∧
    (AutoScanner.do_scan s false inp).2.visionTrigger = none ∧
    (AutoScanner.do_scan s false inp).2.onSnapshotCall = some (inp.ocrText, inp.imagePath) := by
  have hlf : s.lastFingerprint.isNone = false := by
    cases h : s.lastFingerprint with
    | none =>
      rw [h] at hpt
      simp [PageTracker.is_page_turn] at hpt
    | some _ => rfl
  simp [AutoScanner.do_scan, AutoScanner.noEffects, hcam, hframe, htext, hsess, hpt, hlf]

/-- Witness for C2 (amended) at a concrete bound state with an unchanged
fingerprint and usable text. -/
theorem unchanged_page_tick_no_persist_no_trigger_witness :
    (AutoScanner.do_scan
      { running := true, scanTask := true, cameraOpen := true,
        executorAlive := true, hasVision := true, sessionId := some "s2",
        lastFingerprint := some "ab", lastSnapshotId := some 4,
        pageTurnCount := 2 }
      false
      { frameOk := true, ocrText := "some page text", fp := "ab",
        imagePath := "q.jpg", newSnapshotId := 5 }).1 =
      { running := true, scanTask := true, cameraOpen := true,
        executorAlive := true, hasVision := true, sessionId := some "s2",
        lastFingerprint := some "ab", lastSnapshotId := some 4,
        pageTurnCount := 2 } ∧
    (AutoScanner.do_scan
      { running := true, scanTask := true, cameraOpen := true,
        executorAlive := true, hasVision := true, sessionId := some "s2",
        lastFingerprint := some "ab", lastSnapshotId := some 4,
        pageTurnCount := 2 }
      false
      { frameOk := true, ocrText := "some page text", fp := "ab",
        imagePath := "q.jpg", newSnapshotId := 5 }).2.snapshotPersisted = false ∧
    (AutoScanner.do_scan
      { running := true, scanTask := true, cameraOpen := true,
        executorAlive := true, hasVision := true, sessionId := some "s2",
        lastFingerprint := some "ab", lastSnapshotId := some 4,
        pageTurnCount := 2 }
      false
      { frameOk := true, ocrText := "some page text", fp := "ab",
        imagePath := "q.jpg", newSnapshotId := 5 }).2.visionTrigger = none ∧
    (AutoScanner.do_scan
      { running := true, scanTask := true, cameraOpen := true,
        executorAlive := true, hasVision := true, sessionId := some "s2",
        lastFingerprint := some "ab", lastSnapshotId := some 4,
        pageTurnCount := 2 }
      false
      { frameOk := true, ocrText := "some page text", fp := "ab",
        imagePath := "q.jpg", newSnapshotId := 5 }).2.onSnapshotCall =
      some ("some page text", "q.jpg") :=
  unchanged_page_tick_no_persist_no_trigger _ _ "s2" (by decide) (by decide)
    (by decide) (by decide) (by decide)

/-- C4: after `set_session` (`bind_session`), the first tick with usable
text always persists a Snapshot and leaves `page_turn_count == 1`,
regardless of the new fingerprint and of any pre-binding history in the
state — binding cleared the last fingerprint, so the page-turn decision
sees no history and returns true. -/
theorem first_tick_after_bind_persists_and_counts_one
    (s : AutoScanner.State) (sid : String) (inp : AutoScanner.TickInput)
    (hcam : s.cameraOpen = true) (hframe : inp.frameOk = true)
    (htext : ¬ (inp.ocrText.isEmpty ∨
      (AutoScanner.pyStrip inp.ocrText).length < AutoScanner.MIN_OCR_LEN)) :
    (AutoScanner.do_scan (AutoScanner.set_session s sid) false inp).2.snapshotPersisted = true ∧
    (AutoScanner.do_scan (AutoScanner.set_session s sid) false inp).1.pageTurnCount = 1 ∧
    (AutoScanner.do_scan (AutoScanner.set_session s sid) false inp).1.lastFingerprint =
      some inp.fp := by
  simp [AutoScanner.do_scan, AutoScanner.set_session, AutoScanner.noEffects,
    PageTracker.is_page_turn, hcam, hframe, htext]

/-- Witness for C4: binding a session over a history similar to the next
frame (identical fingerprint "ab") still yields a persisted snapshot and
count 1 on the first tick. -/
theorem first_tick_after_bind_persists_and_counts_one_witness :
    (AutoScanner.do_scan
      (AutoScanner.set_session
        { running := true, scanTask := true, cameraOpen := true,
          executorAlive := true, hasVision := true, sessionId := some "old",
          lastFingerprint := some "ab", lastSnapshotId := some 9,
          pageTurnCount := 7 } "s3")
      false
      { frameOk := true, ocrText := "page words here", fp := "ab",
        imagePath := "r.jpg", newSnapshotId := 10 }).2.snapshotPersisted = true ∧
    (AutoScanner.do_scan
      (AutoScanner.set_session
        { running := true, scanTask := true, cameraOpen := true,
          executorAlive := true, hasVision := true, sessionId := some "old",
          lastFingerprint := some "ab", lastSnapshotId := some 9,
          pageTurnCount := 7 } "s3")
      false
      { frameOk := true, ocrText := "page words here", fp := "ab",
        imagePath := "r.jpg", newSnapshotId := 10 }).1.pageTurnCount = 1 ∧
    (AutoScanner.do_scan
      (AutoScanner.set_session
        { running := true, scanTask := true, cameraOpen := true,
          executorAlive := true, hasVision := true, sessionId := some "old",
          lastFingerprint := some "ab", lastSnapshotId := some 9,
          pageTurnCount := 7 } "s3")
      false
      { frameOk := true, ocrText := "page words here", fp := "ab",
        imagePath := "r.jpg", newSnapshotId := 10 }).1.lastFingerprint = some "ab" :=
  first_tick_after_bind_persists_and_counts_one _ "s3" _ (by decide) (by decide) (by decide)

/-- C5: a tick whose recognized text is empty or below the minimum length
calls `on_snapshot` with an empty payload and stops: state unchanged (no
page-count advance), no frame image written, no snapshot persisted, no
vision trigger — session bound or not. -/
theorem empty_text_tick_is_inert
    (s : AutoScanner.State) (inp : AutoScanner.TickInput)
    (hcam : s.cameraOpen = true) (hframe : inp.frameOk = true)
    (htext : inp.ocrText.isEmpty ∨
      (AutoScanner.pyStrip inp.ocrText).length < AutoScanner.MIN_OCR_LEN) :
    (AutoScanner.do_scan s false inp).1 = s ∧
    (AutoScanner.do_scan s false inp).2.onSnapshotCall = some ("", "") ∧
    (AutoScanner.do_scan s false inp).2.imageWritten = false ∧
    (AutoScanner.do_scan s false inp).2.snapshotPersisted = false ∧
    (AutoScanner.do_scan s false inp).2.visionTrigger = none ∧
    (AutoScanner.do_scan s false inp).1.pageTurnCount = s.pageTurnCount := by
  simp [AutoScanner.do_scan, AutoScanner.noEffects, hcam, hframe, htext]

/-- Witness for C5 at a concrete bound state and a short OCR text. -/
theorem empty_text_tick_is_inert_witness :
    (AutoScanner.do_scan
      { running := true, scanTask := true, cameraOpen := true,
        executorAlive := true, hasVision := true, sessionId := some "s4",
        lastFingerprint := some "cd", lastSnapshotId := some 2,
        pageTurnCount := 3 }
      false
      { frameOk := true, ocrText := " ab ", fp := "ee",
        imagePath := "t.jpg", newSnapshotId := 3 }).1 =
      { running := true, scanTask := true, cameraOpen := true,
        executorAlive := true, hasVision := true, sessionId := some "s4",
        lastFingerprint := some "cd", lastSnapshotId := some 2,
        pageTurnCount := 3 } ∧
    (AutoScanner.do_scan
      { running := true, scanTask := true, cameraOpen := true,
        executorAlive := true, hasVision := true, sessionId := some "s4",
        lastFingerprint := some "cd", lastSnapshotId := some 2,
        pageTurnCount := 3 }
      false
      { frameOk := true, ocrText := " ab ", fp := "ee",
        imagePath := "t.jpg", newSnapshotId := 3 }).2.onSnapshotCall = some ("", "") ∧
    (AutoScanner.do_scan
      { running := true, scanTask := true, cameraOpen := true,
        executorAlive := true, hasVision := true, sessionId := some "s4",
        lastFingerprint := some "cd", lastSnapshotId := some 2,
        pageTurnCount := 3 }
      false
      { frameOk := true, ocrText := " ab ", fp := "ee",
        imagePath := "t.jpg", newSnapshotId := 3 }).2.imageWritten = false ∧
    (AutoScanner.do_scan
      { running := true, scanTask := true, cameraOpen := true,
        executorAlive := true, hasVision := true, sessionId := some "s4",
        lastFingerprint := some "cd", lastSnapshotId := some 2,
        pageTurnCount := 3 }
      false
      { frameOk := true, ocrText := " ab ", fp := "ee",
        imagePath := "t.jpg", newSnapshotId := 3 }).2.snapshotPersisted = false ∧
    (AutoScanner.do_scan
      { running := true, scanTask := true, cameraOpen := true,
        executorAlive := true, hasVision := true, sessionId := some "s4",
        lastFingerprint := some "cd", lastSnapshotId := some 2,
        pageTurnCount := 3 }
      false
      { frameOk := true, ocrText := " ab ", fp := "ee",
        imagePath := "t.jpg", newSnapshotId := 3 }).2.visionTrigger = none ∧
    (AutoScanner.do_scan
      { running := true, scanTask := true, cameraOpen := true,
        executorAlive := true, hasVision := true, sessionId := some "s4",
        lastFingerprint := some "cd", lastSnapshotId := some 2,
        pageTurnCount := 3 }
      false
      { frameOk := true, ocrText := " ab ", fp := "ee",
        imagePath := "t.jpg", newSnapshotId := 3 }).1.pageTurnCount = 3 :=
  empty_text_tick_is_inert _ _ (by decide) (by decide) (Or.inr (by decide))

/-- C10: a manual scan (`manual_scan` = `_do_scan(force_save=True)`) in a
bound session with usable text always persists a Snapshot — `force_save`
bypasses the page-change gate — while `page_turn_count` advances, the
page-turn callback fires and the vision trigger is forced exactly when
`is_page_turn` returned true; on an unchanged page the snapshot is added,
the counter stays, the page-turn callback stays silent and any vision
trigger is non-forced. -/
theorem manual_scan_saves_counts_only_on_turn
    (s : AutoScanner.State) (inp : AutoScanner.TickInput) (sid : String)
    (hcam : s.cameraOpen = true) (hframe : inp.frameOk = true)
    (htext : ¬ (inp.ocrText.isEmpty ∨
      (AutoScanner.pyStrip inp.ocrText).length < AutoScanner.MIN_OCR_LEN))
    (hsess : s.sessionId = some sid) :
    (AutoScanner.manual_scan s inp).2.snapshotPersisted = true ∧
    (AutoScanner.manual_scan s inp).1.pageTurnCount =
      (if PageTracker.is_page_turn s.lastFingerprint (some inp.fp) 10
       then s.pageTurnCount + 1 else s.pageTurnCount) ∧
    (PageTracker.is_page_turn s.lastFingerprint (some inp.fp) 10 = true →
      (AutoScanner.manual_scan s inp).2.onPageTurnCall = some (s.pageTurnCount + 1) ∧
      (s.hasVision = true → (AutoScanner.manual_scan s inp).2.visionTrigger = some true)) ∧
    (PageTracker.is_page_turn s.lastFingerprint (some inp.fp) 10 = false →
      (AutoScanner.manual_scan s inp).2.onPageTurnCall = none ∧
      (AutoScanner.manual_scan s inp).2.visionTrigger ≠ some true) := by
  cases hp : PageTracker.is_page_turn s.lastFingerprint (some inp.fp) 10 with
  | true =>
    simp [AutoScanner.manual_scan, AutoScanner.do_scan, AutoScanner.noEffects,
      hcam, hframe, htext, hsess, hp]
  | false =>
    refine ⟨?_, ?_, ?_, ?_⟩ <;>
      simp [AutoScanner.manual_scan, AutoScanner.do_scan, AutoScanner.noEffects,
        hcam, hframe, htext, hsess, hp]

/-- Witness for C10 at a concrete bound state whose fingerprint is
unchanged: the snapshot is persisted but the counter stays at 4. -/
theorem manual_scan_saves_counts_only_on_turn_witness :
    (AutoScanner.manual_scan
      { running := true, scanTask := true, cameraOpen := true,
        executorAlive := true, hasVision := true, sessionId := some "s5",
        lastFingerprint := some "0f", lastSnapshotId := some 6,
        pageTurnCount := 4 }
      { frameOk := true, ocrText := "manual scan text", fp := "0f",
        imagePath := "u.jpg", newSnapshotId := 7 }).2.snapshotPersisted = true ∧
    (AutoScanner.manual_scan
      { running := true, scanTask := true, cameraOpen := true,
        executorAlive := true, hasVision := true, sessionId := some "s5",
        lastFingerprint := some "0f", lastSnapshotId := some 6,
        pageTurnCount := 4 }
      { frameOk := true, ocrText := "manual scan text", fp := "0f",
        imagePath := "u.jpg", newSnapshotId := 7 }).1.pageTurnCount =
      (if PageTracker.is_page_turn (some "0f") (some "0f") 10 then 4 + 1 else 4) ∧
    (PageTracker.is_page_turn (some "0f") (some "0f") 10 = true →
      (AutoScanner.manual_scan
        { running := true, scanTask := true, cameraOpen := true,
          executorAlive := true, hasVision := true, sessionId := some "s5",
          lastFingerprint := some "0f", lastSnapshotId := some 6,
          pageTurnCount := 4 }
        { frameOk := true, ocrText := "manual scan text", fp := "0f",
          imagePath := "u.jpg", newSnapshotId := 7 }).2.onPageTurnCall = some (4 + 1) ∧
      (true = true →
        (AutoScanner.manual_scan
          { running := true, scanTask := true, cameraOpen := true,
            executorAlive := true, hasVision := true, sessionId := some "s5",
            lastFingerprint := some "0f", lastSnapshotId := some 6,
            pageTurnCount := 4 }
          { frameOk := true, ocrText := "manual scan text", fp := "0f",
            imagePath := "u.jpg", newSnapshotId := 7 }).2.visionTrigger = some true)) ∧
    (PageTracker.is_page_turn (some "0f") (some "0f") 10 = false →
      (AutoScanner.manual_scan
        { running := true, scanTask := true, cameraOpen := true,
          executorAlive := true, hasVision := true, sessionId := some "s5",
          lastFingerprint := some "0f", lastSnapshotId := some 6,
          pageTurnCount := 4 }
        { frameOk := true, ocrText := "manual scan text", fp := "0f",
          imagePath := "u.jpg", newSnapshotId := 7 }).2.onPageTurnCall = none ∧
      (AutoScanner.manual_scan
        { running := true, scanTask := true, cameraOpen := true,
          executorAlive := true, hasVision := true, sessionId := some "s5",
          lastFingerprint := some "0f", lastSnapshotId := some 6,
          pageTurnCount := 4 }
        { frameOk := true, ocrText := "manual scan text", fp := "0f",
          imagePath := "u.jpg", newSnapshotId := 7 }).2.visionTrigger ≠ some true) :=
  manual_scan_saves_counts_only_on_turn _ _ "s5" (by decide) (by decide)
    (by decide) (by decide)

/-- C8 counterexample: `stop()` does not clear the whole `ScanState` — at a
state with `page_turn_count = 5`, the counter still reads 5 after `stop()`
(the source resets it only in `set_session`). -/
theorem stop_keeps_page_count_counterexample :
    (AutoScanner.stop
      { running := true, scanTask := true, cameraOpen := true,
        executorAlive := true, hasVision := false, sessionId := some "s6",
        lastFingerprint := some "ab", lastSnapshotId := some 3,
        pageTurnCount := 5 }).pageTurnCount = 5 := by
  rfl

/-- C8 (amended): `stop()`, callable from any state, cancels the scheduled
tick task, closes the camera, shuts down the worker pool, and clears the
bound session id, the last fingerprint and the last snapshot id — but it
leaves `page_turn_count` unchanged (and the orchestrator keeps no
last-snapshot-timestamp field; that timestamp lives in the session
manager). -/
theorem stop_clears_resources_and_history_keeps_count (s : AutoScanner.State) :
    (AutoScanner.stop s).running = false ∧
    (AutoScanner.stop s).scanTask = false ∧
    (AutoScanner.stop s).cameraOpen = false ∧
    (AutoScanner.stop s).executorAlive = false ∧
    (AutoScanner.stop s).sessionId = none ∧
    (AutoScanner.stop s).lastFingerprint = none ∧
    (AutoScanner.stop s).lastSnapshotId = none ∧
    (AutoScanner.stop s).pageTurnCount = s.pageTurnCount := by
  simp [AutoScanner.stop]

namespace VisionAnalyzer

/-- `VisionAnalyzer.MIN_INTERVAL_S` (`src/scanner/vision_analyzer.py`):
minimum number of seconds between non-forced triggers. Wall-clock floats
are embedded as rationals. -/
def MIN_INTERVAL_S : ℚ := 30

/-- Mutable state of `VisionAnalyzer`: the timestamp of the last accepted
trigger (`0.0` initially) and whether a `_pending_task` has been
scheduled. -/
structure State where
  lastTriggerTs : ℚ
  pendingExists : Bool
  deriving DecidableEq

/-- Outcome of one `trigger` call: the successor state and whether a new
background task was scheduled. -/
structure TriggerResult where
  st : State
  scheduled : Bool
  deriving DecidableEq

/-- `VisionAnalyzer.trigger(image_path, force)`: skips if not forced and
within the minimum interval since the last trigger; skips if not forced
while the pending task exists and is not done (`pendingDone` is whether
`self._pending_task.done()` would report completion); otherwise records
the timestamp and schedules a new task (overwriting `_pending_task`). -/
def trigger (s : State) (now : ℚ) (force : Bool) (pendingDone : Bool) : TriggerResult :=
  if ¬ (force = true) ∧ now - s.lastTriggerTs < MIN_INTERVAL_S then
    { st := s, scheduled := false }
  else if s.pendingExists = true ∧ ¬ (pendingDone = true) ∧ ¬ (force = true) then
    { st := s, scheduled := false }
  else
    { st := { lastTriggerTs := now, pendingExists := true }, scheduled := true }

end VisionAnalyzer

/-- C6: from an idle analyzer, two non-forced `trigger` calls within
`MIN_INTERVAL` schedule exactly one background task (the first schedules,
the second is dropped by the interval check); a non-forced call while a
task is in flight never schedules (at most one non-forced task in flight);
and a forced call always schedules — bypassing both the interval check and
the in-flight check — leaving a pending task behind. -/
theorem vision_trigger_rate_limit_and_force
    (s : VisionAnalyzer.State) (t1 t2 : ℚ) (pd : Bool)
    (hfree : s.pendingExists = false)
    (h1 : VisionAnalyzer.MIN_INTERVAL_S ≤ t1 - s.lastTriggerTs)
    (h2 : t2 - t1 < VisionAnalyzer.MIN_INTERVAL_S) :
    (VisionAnalyzer.trigger s t1 false pd).scheduled = true ∧
    (VisionAnalyzer.trigger (VisionAnalyzer.trigger s t1 false pd).st t2 false pd).scheduled
      = false ∧
    (∀ (s' : VisionAnalyzer.State) (now : ℚ),
      s'.pendingExists = true →
      (VisionAnalyzer.trigger s' now false false).scheduled = false) ∧
    (∀ (s' : VisionAnalyzer.State) (now : ℚ) (pd' : Bool),
      (VisionAnalyzer.trigger s' now true pd').scheduled = true ∧
      (VisionAnalyzer.trigger s' now true pd').st.pendingExists = true) := by
  have hnot1 : ¬ (t1 - s.lastTriggerTs < VisionAnalyzer.MIN_INTERVAL_S) := not_lt.mpr h1
  have hfirst : VisionAnalyzer.trigger s t1 false pd =
      { st := { lastTriggerTs := t1, pendingExists := true }, scheduled := true } := by
    simp [VisionAnalyzer.trigger, hnot1, hfree]
  refine ⟨?_, ?_, ?_, ?_⟩
  · rw [hfirst]
  · rw [hfirst]
    simp [VisionAnalyzer.trigger, h2]
  · intro s' now hpend
    by_cases hiv : now - s'.lastTriggerTs < VisionAnalyzer.MIN_INTERVAL_S
    · simp [VisionAnalyzer.trigger, hiv]
    · simp [VisionAnalyzer.trigger, hiv, hpend]
  · intro s' now pd'
    simp [VisionAnalyzer.trigger]

/-- Witness for C6: analyzer idle since time 0; calls at 100 s and 110 s. -/
theorem vision_trigger_rate_limit_and_force_witness :
    (VisionAnalyzer.trigger ⟨0, false⟩ 100 false false).scheduled = true ∧
    (VisionAnalyzer.trigger (VisionAnalyzer.trigger ⟨0, false⟩ 100 false false).st
      110 false false).scheduled = false ∧
    (∀ (s' : VisionAnalyzer.State) (now : ℚ),
      s'.pendingExists = true →
      (VisionAnalyzer.trigger s' now false false).scheduled = false) ∧
    (∀ (s' : VisionAnalyzer.State) (now : ℚ) (pd' : Bool),
      (VisionAnalyzer.trigger s' now true pd').scheduled = true ∧
      (VisionAnalyzer.trigger s' now true pd').st.pendingExists = true) :=
  vision_trigger_rate_limit_and_force ⟨0, false⟩ 100 110 false rfl
    (by norm_num [VisionAnalyzer.MIN_INTERVAL_S]) (by norm_num [VisionAnalyzer.MIN_INTERVAL_S])

namespace SessionManager

/-- A row of the `snapshots` table (`PageSnapshot` in
`src/session/models.py`); `dwell_ms` defaults to 0 at insertion. -/
structure SnapRecord where
  id : Nat
  session_id : String
  ts : Int
  image_path : String
  ocr_text : String
  fingerprint : String
  dwell_ms : Int
  deriving DecidableEq, Repr

/-- `SessionManager` state (`src/session/manager.py`) together with the
snapshot rows of the external store and the store's next autoincrement id
(SQLite autoincrement starts at 1, so row ids are never 0). -/
structure State where
  currentSession : Option String
  lastSnapshotId : Option Nat
  lastSnapshotTs : Int
  snapshots : List SnapRecord
  nextId : Nat
  deriving DecidableEq, Repr

/-- Python truthiness of `self._last_snapshot_id`: `if self._last_snapshot_id:`
is false for `None` and for `0`. -/
def truthyId : Option Nat → Option Nat
  | some i => if i = 0 then none else some i
  | none => none

/-- `Storage.update_snapshot_dwell`: set `dwell_ms` on the row with the
given id. -/
def update_snapshot_dwell (store : List SnapRecord) (i : Nat) (d : Int) :
    List SnapRecord :=
  store.map (fun r => if r.id = i then { r with dwell_ms := d } else r)

/-- `SessionManager.add_snapshot(image_path, ocr_text, fingerprint)` at
wall-clock `now` (ms): raises (`none`) without an active session; otherwise
back-fills the previous snapshot's dwell time, inserts the new row with
`dwell_ms = 0`, and returns the new state with the assigned id. -/
def add_snapshot (s : State) (now : Int) (image_path ocr_text fingerprint : String) :
    Option (State × Nat) :=
  match s.currentSession with
  | none => none
  | some sid =>
    let store1 :=
      match truthyId s.lastSnapshotId with
      | some i => update_snapshot_dwell s.snapshots i (now - s.lastSnapshotTs)
      | none => s.snapshots
    let snapId := s.nextId
    let newRow : SnapRecord :=
      { id := snapId, session_id := sid, ts := now, image_path := image_path,
        ocr_text := ocr_text, fingerprint := fingerprint, dwell_ms := 0 }
    some ({ s with snapshots := store1 ++ [newRow],
                   lastSnapshotId := some snapId,
                   lastSnapshotTs := now,
                   nextId := s.nextId + 1 }, snapId)

/-- `SessionManager.end_session` at wall-clock `now` (ms): without an
active session it does nothing; otherwise it back-fills the last
snapshot's dwell time and clears the current session and last snapshot
id. -/
def end_session (s : State) (now : Int) : State :=
  match s.currentSession with
  | none => s
  | some _ =>
    let store1 :=
      match truthyId s.lastSnapshotId with
      | some i => update_snapshot_dwell s.snapshots i (now - s.lastSnapshotTs)
      | none => s.snapshots
    { s with snapshots := store1, currentSession := none, lastSnapshotId := none }

end SessionManager

/-- C7: `dwell_ms` is never set at creation time — a freshly inserted
snapshot row carries `dwell_ms = 0` — and is back-filled onto the previous
snapshot when the next one is created (to the next snapshot's timestamp
minus its own) or onto the last snapshot when the session ends. The
hypotheses record the manager's invariant: the remembered last-snapshot id
is a live row whose stored timestamp matches `_last_snapshot_ts`, and the
store's autoincrement id is fresh. -/
theorem dwell_ms_backfilled_not_set_at_creation
    (s : SessionManager.State) (sid : String) (i : Nat) (now now2 : Int)
    (p t f : String)
    (hsess : s.currentSession = some sid)
    (hlast : s.lastSnapshotId = some i) (hi : i ≠ 0)
    (hts : ∀ r ∈ s.snapshots, r.id = i → r.ts = s.lastSnapshotTs)
    (hfresh : ∀ r ∈ s.snapshots, r.id ≠ s.nextId) :
    (SessionManager.add_snapshot s now p t f).isSome = true ∧
    (∀ s' j, SessionManager.add_snapshot s now p t f = some (s', j) →
      j = s.nextId ∧
      (∀ r ∈ s'.snapshots, r.id = i → r.dwell_ms = now - r.ts) ∧
      (∀ r ∈ s'.snapshots, r.id = j → r.dwell_ms = 0 ∧ r.ts = now)) ∧
    (∀ r ∈ (SessionManager.end_session s now2).snapshots, r.id = i →
      r.dwell_ms = now2 - r.ts) := by
  have htruthy : SessionManager.truthyId s.lastSnapshotId = some i := by
    rw [hlast]
    simp [SessionManager.truthyId, hi]
  refine ⟨?_, ?_, ?_⟩
  · simp [SessionManager.add_snapshot, hsess]
  · intro s' j hadd
    rw [SessionManager.add_snapshot] at hadd
    rw [hsess] at hadd
    simp only [htruthy, Option.some.injEq, Prod.mk.injEq] at hadd
    obtain ⟨hs', hj⟩ := hadd
    refine ⟨hj.symm, ?_, ?_⟩
    · intro r hr hrid
      rw [← hs'] at hr
      simp only [List.mem_append, List.mem_singleton] at hr
      rcases hr with hr | hr
      · rw [SessionManager.update_snapshot_dwell] at hr
        obtain ⟨r0, hr0, hr0e⟩ := List.mem_map.mp hr
        by_cases h0 : r0.id = i
        · rw [if_pos h0] at hr0e
          have hts0 := hts r0 hr0 h0
          rw [← hr0e]
          simp [hts0]
        · rw [if_neg h0] at hr0e
          rw [← hr0e] at hrid
          exact absurd hrid h0
      · rw [hr]
        simp
    · intro r hr hrid
      rw [← hs'] at hr
      simp only [List.mem_append, List.mem_singleton] at hr
      rcases hr with hr | hr
      · rw [SessionManager.update_snapshot_dwell] at hr
        obtain ⟨r0, hr0, hr0e⟩ := List.mem_map.mp hr
        have hid0 : r0.id = r.id := by
          by_cases h0 : r0.id = i
          · rw [if_pos h0] at hr0e; rw [← hr0e]
          · rw [if_neg h0] at hr0e; rw [← hr0e]
        rw [hrid, ← hj] at hid0
        exact absurd hid0 (hfresh r0 hr0)
      · rw [hr]
        exact ⟨rfl, rfl⟩
  · intro r hr hrid
    rw [SessionManager.end_session, hsess] at hr
    simp only [htruthy] at hr
    rw [SessionManager.update_snapshot_dwell] at hr
    obtain ⟨r0, hr0, hr0e⟩ := List.mem_map.mp hr
    by_cases h0 : r0.id = i
    · rw [if_pos h0] at hr0e
      have hts0 := hts r0 hr0 h0
      rw [← hr0e]
      simp [hts0]
    · rw [if_neg h0] at hr0e
      rw [← hr0e] at hrid
      exact absurd hrid h0

/-- Witness for C7: one session with a single stored snapshot (id 1,
timestamp 1000 ms); the next snapshot at 3000 ms and a session end at
5000 ms back-fill its dwell time. -/
theorem dwell_ms_backfilled_not_set_at_creation_witness :
    (SessionManager.add_snapshot
      { currentSession := some "s7", lastSnapshotId := some 1,
        lastSnapshotTs := 1000,
        snapshots := [{ id := 1, session_id := "s7", ts := 1000,
                        image_path := "a.jpg", ocr_text := "first page",
                        fingerprint := "ff", dwell_ms := 0 }],
        nextId := 2 } 3000 "b.jpg" "second page" "0f").isSome = true ∧
    (∀ s' j, SessionManager.add_snapshot
      { currentSession := some "s7", lastSnapshotId := some 1,
        lastSnapshotTs := 1000,
        snapshots := [{ id := 1, session_id := "s7", ts := 1000,
                        image_path := "a.jpg", ocr_text := "first page",
                        fingerprint := "ff", dwell_ms := 0 }],
        nextId := 2 } 3000 "b.jpg" "second page" "0f" = some (s', j) →
      j = 2 ∧
      (∀ r ∈ s'.snapshots, r.id = 1 → r.dwell_ms = 3000 - r.ts) ∧
      (∀ r ∈ s'.snapshots, r.id = j → r.dwell_ms = 0 ∧ r.ts = 3000)) ∧
    (∀ r ∈ (SessionManager.end_session
      { currentSession := some "s7", lastSnapshotId := some 1,
        lastSnapshotTs := 1000,
        snapshots := [{ id := 1, session_id := "s7", ts := 1000,
                        image_path := "a.jpg", ocr_text := "first page",
                        fingerprint := "ff", dwell_ms := 0 }],
        nextId := 2 } 5000).snapshots, r.id = 1 → r.dwell_ms = 5000 - r.ts) :=
  dwell_ms_backfilled_not_set_at_creation
    { currentSession := some "s7", lastSnapshotId := some 1,
      lastSnapshotTs := 1000,
      snapshots := [{ id := 1, session_id := "s7", ts := 1000,
                      image_path := "a.jpg", ocr_text := "first page",
                      fingerprint := "ff", dwell_ms := 0 }],
      nextId := 2 } "s7" 1 3000 5000 "b.jpg" "second page" "0f"
    rfl rfl (by decide)
    (by
      intro r hr hrid
      rw [List.mem_singleton] at hr
      rw [hr])
    (by
      intro r hr
      rw [List.mem_singleton] at hr
      rw [hr]
      decide)
